import Mathlib

/-!
Verification of the Lead Scoring and Sequence Orchestration engine of the
xendex sales-agent repository.  The data shapes follow the TypeScript
interfaces of the API client; the page-level handlers are embedded from the
React pages (InSequence, Drafts, Leads, LeadScoresDisplay).  Backend
operations that only the API client exposes are modelled from the spec and
say so in their doc comments.
-/

set_option maxHeartbeats 1000000

/-- The `Lead` interface of the API client: the fields the sequence and
scoring pages read.  Optional TS fields become `Option`. -/
structure Lead where
  id : String
  company_name : String
  email : String
  status : String
  num_followups : Option Nat
  has_replied : Option Bool
  deriving Repr, DecidableEq

/-- The `Draft` interface of the API client (fields used by the pages). -/
structure Draft where
  id : String
  lead_id : String
  touch_number : Nat
  subject_options : List String
  selected_subject : Option String
  body : String
  status : String
  deriving Repr, DecidableEq

/-- The `Sequence` (alias `Campaign`) interface of the API client. -/
structure Campaign where
  id : String
  external_id : Option String
  name : String
  status : String
  sequence_touches : Int
  touch_delays : Option (List Int)
  deriving Repr, DecidableEq

/-! ## InSequence page: queue filters and row actions -/

/-- `activeLeads` in `InSequence.tsx`: leads whose status is `sequencing`
or `contacted`. -/
def activeLeads (leadsInSequence : List Lead) : List Lead :=
  leadsInSequence.filter
    (fun l => l.status = "sequencing" ∨ l.status = "contacted")

/-- `completedLeads` in `InSequence.tsx`: statuses counted as history. -/
def completedLeads (leadsInSequence : List Lead) : List Lead :=
  leadsInSequence.filter
    (fun l => ["completed", "replied", "converted", "disqualified"].contains l.status)

/-- `leadsToShow` in `InSequence.tsx`: active queue or history depending on
the `showCompleted` toggle.  Rows of either list carry the
`handleRowClick` action. -/
def leadsToShow (showCompleted : Bool) (leadsInSequence : List Lead) : List Lead :=
  if showCompleted then completedLeads leadsInSequence else activeLeads leadsInSequence

/-- The API calls a page handler can issue (API client functions of
`inSequenceApi` used by the InSequence page). -/
inductive SeqCall
  | triggerFollowup (campaignId leadId : String)
  | approveFollowup (campaignId leadId draftId subject body : String)
  | updateCampaign (campaignId : String)
  deriving Repr, DecidableEq

/-- Whether a call is the send gate `approveFollowup`. -/
def isApprove : SeqCall → Bool
  | SeqCall.approveFollowup _ _ _ _ _ => true
  | _ => false

/-- `handleRowClick` in `InSequence.tsx`: returns early when no default
campaign exists, otherwise issues the trigger mutation for the clicked
lead.  No field of the lead is inspected. -/
def handleRowClick (defaultCampaign : Option Campaign) (lead : Lead) : List SeqCall :=
  match defaultCampaign with
  | none => []
  | some c => [SeqCall.triggerFollowup c.id lead.id]

/-- The component state that `handleConfirmSend` reads. -/
structure SeqUIState where
  defaultCampaign : Option Campaign
  selectedSequenceLead : Option Lead
  triggerDraft : Option Draft
  draftSubject : String
  draftBody : String

/-- `handleConfirmSend` in `InSequence.tsx`: a no-op unless a default
campaign, a selected lead and a trigger-produced draft are all present; it
is the only code path that issues `approveFollowup`. -/
def handleConfirmSend (s : SeqUIState) : List SeqCall :=
  match s.defaultCampaign, s.selectedSequenceLead, s.triggerDraft with
  | some c, some l, some d =>
      [SeqCall.approveFollowup c.id l.id d.id s.draftSubject s.draftBody]
  | _, _, _ => []

/-- The user interactions of the InSequence page that can issue API calls. -/
inductive SeqAction
  | rowClick (lead : Lead)
  | approveClick
  | modalConfirm
  | modalCancel
  deriving Repr

/-- Which API calls each InSequence interaction issues: a row click runs
`handleRowClick`; the Approve button only opens the summary modal; the
modal Confirm button saves the campaign config and then runs
`handleConfirmSend`; Cancel closes the modal. -/
def actionCalls (s : SeqUIState) : SeqAction → List SeqCall
  | SeqAction.rowClick lead => handleRowClick s.defaultCampaign lead
  | SeqAction.approveClick => []
  | SeqAction.modalConfirm =>
      (match s.defaultCampaign with
        | none => []
        | some c => SeqCall.updateCampaign c.id :: handleConfirmSend s)
  | SeqAction.modalCancel => []

/-! ## triggerFollowupMutation: auto-enroll-and-retry fallback -/

/-- The axios error shape the mutation inspects
(`err.response?.status`). -/
structure ApiErr where
  status : Option Nat
  detail : String
  deriving Repr, DecidableEq

/-- One backend round-trip made by the mutation. -/
inductive FlowStep
  | callTrigger
  | callAddLeads
  deriving Repr, DecidableEq, BEq

/-- The `mutationFn` of `triggerFollowupMutation` in `InSequence.tsx`:
try `triggerFollowup`; on a 404 response, `addLeads` (auto-enroll) and try
`triggerFollowup` once more with no further handler; any other error is
rethrown.  The function is given the outcomes the three possible
round-trips would have, and returns the overall outcome together with the
round-trips actually performed, in order. -/
def triggerFollowupFlow (first : Except ApiErr Draft)
    (enroll : Except ApiErr Unit) (retry : Except ApiErr Draft) :
    Except ApiErr Draft × List FlowStep :=
  match first with
  | Except.ok d => (Except.ok d, [FlowStep.callTrigger])
  | Except.error e =>
      if e.status = some 404 then
        match enroll with
        | Except.error e2 =>
            (Except.error e2, [FlowStep.callTrigger, FlowStep.callAddLeads])
        | Except.ok _ =>
            (retry, [FlowStep.callTrigger, FlowStep.callAddLeads, FlowStep.callTrigger])
      else
        (Except.error e, [FlowStep.callTrigger])

/-! ## saveEditing: sequence configuration broadcast -/

/-- The JavaScript idiom `parseInt(String(x)) || 3` of `saveEditing`: a
non-numeric input parses to NaN which is falsy, and a parsed 0 is falsy,
so both fall back to 3; any other parsed integer stands.  `none` models a
non-numeric input. -/
def parseIntOr3 : Option Int → Int
  | none => 3
  | some n => if n = 0 then 3 else n

/-- `saveEditing` in `InSequence.tsx`: parse the touch count and the single
delay value, build `Array(touches).fill(delayInput)` and submit both.
`Array(n)` with a negative `n` throws a RangeError, modelled as `none`. -/
def saveEditingDelays (touchesInput delayInput : Option Int) :
    Option (Int × List Int) :=
  let touches := parseIntOr3 touchesInput
  let delayInput := parseIntOr3 delayInput
  if touches < 0 then none
  else some (touches, List.replicate touches.toNat delayInput)

/-! ## Drafts page: pending-only actions and reject reason -/

/-- The preview footer of `Drafts.tsx` that carries the Reject and the
Approve buttons is rendered only when the selected draft is pending. -/
def previewFooterVisible (selectedDraft : Draft) : Bool :=
  selectedDraft.status = "pending"

/-- The reject call the Drafts page can issue. -/
structure RejectCall where
  draftId : String
  reason : String
  deriving Repr, DecidableEq

/-- `handleReject` in `Drafts.tsx`: issues the reject mutation only when a
draft is selected and the reason is non-empty after trimming. -/
def handleReject (selectedDraft : Option Draft) (rejectReason : String) :
    Option RejectCall :=
  match selectedDraft with
  | none => none
  | some d =>
      if rejectReason.trim ≠ "" then some ⟨d.id, rejectReason⟩ else none

/-! ## Pagination (Drafts page and Leads page, identical code) -/

/-- `totalPages = data?.pages || 1`: missing data or a falsy page count
fall back to 1. -/
def totalPagesOf : Option Nat → Nat
  | none => 1
  | some n => if n = 0 then 1 else n

/-- The Previous button: `setPage((p) => Math.max(1, p - 1))`. -/
def prevPage (p : Nat) : Nat := max 1 (p - 1)

/-- The Next button: `setPage((p) => Math.min(totalPages, p + 1))`. -/
def nextPage (totalPages p : Nat) : Nat := min totalPages (p + 1)

/-- A press of one of the two pagination buttons. -/
inductive PageAction
  | prev
  | next
  deriving Repr, DecidableEq

/-- Apply one pagination button to the page state. -/
def applyPageAction (totalPages : Nat) (p : Nat) : PageAction → Nat
  | PageAction.prev => prevPage p
  | PageAction.next => nextPage totalPages p

/-- Run a sequence of pagination button presses starting from the initial
state `useState(1)`. -/
def runPageActions (totalPages : Nat) (actions : List PageAction) : Nat :=
  actions.foldl (applyPageAction totalPages) 1

/-! ## LeadScoresDisplay: formula proof line and qualification badge -/

/-- The `LeadScoreData` response shape read by `LeadScoresDisplay.tsx`.
Scores are modelled as rationals. -/
structure LeadScoreData where
  lead_id : String
  fit_score : ℚ
  readiness_score : ℚ
  intent_score : ℚ
  composite_score : ℚ
  status : String
  deriving Repr, DecidableEq

/-- The left side of the Formula Proof line rendered by
`LeadScoresDisplay.tsx`: `(fit·100 × 0.30) + (readiness·100 × 0.35) +
(intent·100 × 0.35)`. -/
def formulaProofLHS (fit readiness intent : ℚ) : ℚ :=
  (fit * 100) * (30 / 100) + (readiness * 100) * (35 / 100)
    + (intent * 100) * (35 / 100)

/-- The identity the Formula Proof line displays: its left side equals the
rendered composite percentage `composite·100`. -/
def formulaProofHolds (d : LeadScoreData) : Prop :=
  formulaProofLHS d.fit_score d.readiness_score d.intent_score
    = d.composite_score * 100

instance (d : LeadScoreData) : Decidable (formulaProofHolds d) := by
  unfold formulaProofHolds; infer_instance

/-- The qualification badge of `LeadScoresDisplay.tsx`: the QUALIFIED
variant is rendered exactly when `data.status === 'qualified'`. -/
def qualificationBadge (d : LeadScoreData) : String :=
  if d.status = "qualified" then "QUALIFIED (≥60%)" else "UNQUALIFIED (<60%)"

/-! ## Spec-modelled backend: Scoring Engine -/

/-- Modelled from the spec: the backend Scoring Engine is not under `src/`
(only its caller `LeadScoresDisplay.tsx` is).  Composite is the convex
combination of the three axis scores with the reference weights fit=0.30,
readiness=0.35, intent=0.35. -/
def compositeScore (fit readiness intent : ℚ) : ℚ :=
  (30 / 100) * fit + (35 / 100) * readiness + (35 / 100) * intent

/-- The global composite qualification threshold of policy (a). -/
def qualificationThreshold : ℚ := 60 / 100

/-- Modelled from the spec: the backend qualification verdict is not under
`src/`.  Policy (a): the lead is `qualified` exactly when the composite
score reaches the global threshold 0.60. -/
def scoredStatus (composite : ℚ) : String :=
  if qualificationThreshold ≤ composite then "qualified" else "unqualified"

/-- Modelled from the spec: the backend recalculation endpoint
`/scoring/:leadId/recalculate` is not under `src/` (only its caller
`LeadScoresDisplay.tsx` is).  It returns the axis scores together with
the composite as their weighted sum and the qualification verdict of
policy (a). -/
def recalculateScores (leadId : String) (fit readiness intent : ℚ) :
    LeadScoreData :=
  { lead_id := leadId
    fit_score := fit
    readiness_score := readiness
    intent_score := intent
    composite_score := compositeScore fit readiness intent
    status := scoredStatus (compositeScore fit readiness intent) }

/-! ## Spec-modelled backend: Draft Lifecycle -/

namespace Backend

/-- Draft approval status. -/
inductive DraftStatus
  | pending
  | approved
  | rejected
  | sent
  deriving Repr, DecidableEq, BEq

/-- The backend draft record (the fields the lifecycle operations use). -/
structure Draft where
  id : Nat
  leadId : Nat
  touchNumber : Nat
  status : DraftStatus
  deriving Repr, DecidableEq

/-- Errors of the draft lifecycle operations. -/
inductive DraftErr
  | invalidState
  | notFound
  deriving Repr, DecidableEq

/-- Modelled from the spec: the backend `approve` operation is not under
`src/` (only the API client `draftsApi.approve` is).  It requires status
`pending`, sets status `approved`, and fails with `InvalidStateError`
otherwise. -/
def approveDraft (d : Draft) : Except DraftErr Draft :=
  if d.status = DraftStatus.pending then
    Except.ok { d with status := DraftStatus.approved }
  else
    Except.error DraftErr.invalidState

/-- Approve one draft id against the store: per-id lookup then
`approveDraft`, updating the store only on success. -/
def bulkApproveStep (store : List Draft) (draftId : Nat) :
    List Draft × Except DraftErr Draft :=
  match store.find? (fun d => d.id = draftId) with
  | none => (store, Except.error DraftErr.notFound)
  | some d =>
      match approveDraft d with
      | Except.ok d2 =>
          (store.map (fun x => if x.id = draftId then d2 else x), Except.ok d2)
      | Except.error e => (store, Except.error e)

/-- Modelled from the spec: the backend `bulkApprove` is not under `src/`
(only the API client `draftsApi.bulkApprove` is).  It applies `approve`
per draft id, reports each outcome per id, and never fails as a whole
batch. -/
def bulkApprove (store : List Draft) :
    List Nat → List Draft × List (Nat × Except DraftErr Draft)
  | [] => (store, [])
  | draftId :: rest =>
      let s := bulkApproveStep store draftId
      let r := bulkApprove s.1 rest
      (r.1, (draftId, s.2) :: r.2)

/-! ## Spec-modelled backend: trigger and the at-most-one-pending invariant -/

/-- The draft store the trigger operation works over. -/
structure TriggerState where
  drafts : List Draft
  nextId : Nat
  deriving Repr, DecidableEq

/-- Whether a draft is the pending draft of one (lead, touch) slot. -/
def isPendingSlot (leadId touch : Nat) (d : Draft) : Bool :=
  decide (d.leadId = leadId ∧ d.touchNumber = touch
    ∧ d.status = DraftStatus.pending)

/-- The pending drafts of one (lead, touch) slot. -/
def pendingFor (st : TriggerState) (leadId touch : Nat) : List Draft :=
  st.drafts.filter (isPendingSlot leadId touch)

/-- Modelled from the spec: the backend `trigger` operation is not under
`src/` (only the API client `inSequenceApi.triggerFollowup` and its caller
are).  While a pending draft exists for the (lead, touch) slot a second
trigger reuses it; otherwise a fresh pending draft is created.  Triggers
for the same lead are serialized per the concurrency model, so rapid
succession is two sequential applications. -/
def trigger (st : TriggerState) (leadId touch : Nat) : TriggerState × Draft :=
  match st.drafts.find? (isPendingSlot leadId touch) with
  | some d => (st, d)
  | none =>
      (⟨⟨st.nextId, leadId, touch, DraftStatus.pending⟩ :: st.drafts,
        st.nextId + 1⟩,
       ⟨st.nextId, leadId, touch, DraftStatus.pending⟩)

/-- Two triggers for the same (lead, touch) in succession. -/
def triggerTwice (st : TriggerState) (leadId touch : Nat) : TriggerState :=
  (trigger (trigger st leadId touch).1 leadId touch).1

end Backend

/-! ## Theorems -/

/-- C2 counterexample: the example of the claim is arithmetically wrong
for the stated weights: fit=0.8, readiness=0.6, intent=0.5 gives composite
0.30·0.8 + 0.35·0.6 + 0.35·0.5 = 0.625, not 0.615. -/
theorem composite_example_is_625_not_615 :
    compositeScore (8 / 10) (6 / 10) (5 / 10) = 625 / 1000
      ∧ compositeScore (8 / 10) (6 / 10) (5 / 10) ≠ 615 / 1000 := by
  constructor
  · norm_num [compositeScore]
  · norm_num [compositeScore]

/-- C2 (amended): every lead score record produced by recalculation has
its composite equal to the convex combination 0.30·fit + 0.35·readiness +
0.35·intent, the Formula Proof line of the score display renders a true
identity for it, and the reference inputs fit=0.8, readiness=0.6,
intent=0.5 yield composite 0.625. -/
theorem composite_weighted_sum_formula_proof :
    (∀ (leadId : String) (f r i : ℚ),
      (recalculateScores leadId f r i).composite_score
          = (30 / 100) * f + (35 / 100) * r + (35 / 100) * i
        ∧ formulaProofHolds (recalculateScores leadId f r i))
    ∧ (recalculateScores "L" (8 / 10) (6 / 10) (5 / 10)).composite_score
        = 625 / 1000 := by
  refine ⟨fun leadId f r i => ⟨rfl, ?_⟩, by norm_num [recalculateScores, compositeScore]⟩
  show formulaProofLHS f r i = compositeScore f r i * 100
  unfold formulaProofLHS compositeScore
  ring

/-- C3: the qualification badge rendered by the score display for a
recalculated score record is the QUALIFIED (≥60%) variant exactly when the
composite score is at least the global threshold 0.60. -/
theorem qualification_badge_iff_composite_threshold
    (leadId : String) (f r i : ℚ) :
    qualificationBadge (recalculateScores leadId f r i) = "QUALIFIED (≥60%)"
      ↔ qualificationThreshold ≤ compositeScore f r i := by
  show qualificationBadge
      { lead_id := leadId, fit_score := f, readiness_score := r
        intent_score := i, composite_score := compositeScore f r i
        status := scoredStatus (compositeScore f r i) }
      = "QUALIFIED (≥60%)" ↔ _
  unfold qualificationBadge scoredStatus
  by_cases hc : qualificationThreshold ≤ compositeScore f r i
  · simp [hc]
  · simp [hc]

/-- The pagination invariant for a single step. -/
lemma applyPageAction_bounds (totalPages p : Nat) (htp : 1 ≤ totalPages)
    (hp1 : 1 ≤ p) (hp2 : p ≤ totalPages) (a : PageAction) :
    1 ≤ applyPageAction totalPages p a
      ∧ applyPageAction totalPages p a ≤ totalPages := by
  cases a with
  | prev =>
      refine ⟨Nat.le_max_left 1 (p - 1), ?_⟩
      exact Nat.max_le.mpr ⟨htp, le_trans (Nat.sub_le p 1) hp2⟩
  | next =>
      refine ⟨Nat.le_min.mpr ⟨htp, le_trans hp1 (Nat.le_succ p)⟩, ?_⟩
      exact Nat.min_le_left _ _

/-- The pagination invariant over a whole run of button presses. -/
lemma runPageActions_bounds_aux (totalPages : Nat) (htp : 1 ≤ totalPages)
    (actions : List PageAction) :
    ∀ p, 1 ≤ p → p ≤ totalPages →
      1 ≤ actions.foldl (applyPageAction totalPages) p
        ∧ actions.foldl (applyPageAction totalPages) p ≤ totalPages := by
  induction actions with
  | nil => intro p hp1 hp2; exact ⟨hp1, hp2⟩
  | cons a rest ih =>
      intro p hp1 hp2
      have hstep := applyPageAction_bounds totalPages p htp hp1 hp2 a
      exact ih (applyPageAction totalPages p a) hstep.1 hstep.2

/-- C10: starting from page 1, after any sequence of Previous/Next presses
the page stays within 1 and `totalPages` (with `data?.pages || 1` as the
page count), because Previous computes `max(1, p-1)` and Next computes
`min(totalPages, p+1)`. -/
theorem pagination_page_in_bounds (pagesField : Option Nat)
    (actions : List PageAction) :
    1 ≤ runPageActions (totalPagesOf pagesField) actions
      ∧ runPageActions (totalPagesOf pagesField) actions
          ≤ totalPagesOf pagesField := by
  have htp : 1 ≤ totalPagesOf pagesField := by
    cases pagesField with
    | none => exact le_refl 1
    | some n =>
        by_cases hn : n = 0
        · simp [totalPagesOf, hn]
        · simp only [totalPagesOf, if_neg hn]
          exact Nat.one_le_iff_ne_zero.mpr hn
  exact runPageActions_bounds_aux (totalPagesOf pagesField) htp actions 1
    (le_refl 1) htp

/-- C6: for a touch count t ≥ 1 and a delay d ≥ 1 entered in the form (the
inputs are constrained to min 1), `saveEditing` submits `touch_delays` as
exactly t copies of d, so the resolved delay `touch_delays[num_followups]`
is d for every cursor below t; non-numeric inputs fall back to touch count
3 and delay 3. -/
theorem save_editing_broadcasts_delays (t d : Int)
    (ht : 1 ≤ t) (hd : 1 ≤ d) :
    saveEditingDelays (some t) (some d) = some (t, List.replicate t.toNat d)
      ∧ (List.replicate t.toNat d).length = t.toNat
      ∧ (∀ k, k < t.toNat → (List.replicate t.toNat d).getD k 0 = d)
      ∧ saveEditingDelays none none = some (3, List.replicate 3 3) := by
  have htne : t ≠ 0 := by omega
  have hdne : d ≠ 0 := by omega
  have htnn : ¬ t < 0 := by omega
  refine ⟨?_, List.length_replicate _ _, ?_, by decide⟩
  · simp [saveEditingDelays, parseIntOr3, htne, hdne, htnn]
  · intro k hk
    simp [List.getD, List.getElem?_replicate, hk]

/-- C6 witness: touch count 3 and delay 5 broadcast to three copies of 5. -/
theorem save_editing_broadcasts_delays_witness :
    saveEditingDelays (some 3) (some 5) = some (3, List.replicate 3 5)
      ∧ (List.replicate (3 : Int).toNat 5).length = (3 : Int).toNat
      ∧ (∀ k, k < (3 : Int).toNat
          → (List.replicate (3 : Int).toNat (5 : Int)).getD k 0 = 5)
      ∧ saveEditingDelays none none = some (3, List.replicate 3 3) :=
  save_editing_broadcasts_delays 3 5 (by decide) (by decide)

/-- C5: the trigger mutation performs the auto-enroll fallback at most
once per invocation: a 404 failure enrolls the lead and retries the
trigger exactly once, with the retry outcome (success or failure)
propagated unmodified; any other first failure propagates with no enroll
and no retry. -/
theorem auto_enroll_retry_at_most_once (first : Except ApiErr Draft)
    (enroll : Except ApiErr Unit) (retry : Except ApiErr Draft) :
    ((triggerFollowupFlow first enroll retry).2.count FlowStep.callAddLeads ≤ 1
      ∧ (triggerFollowupFlow first enroll retry).2.count FlowStep.callTrigger ≤ 2)
    ∧ (∀ e, first = Except.error e → e.status = some 404 →
        enroll = Except.ok () →
          triggerFollowupFlow first enroll retry
            = (retry,
               [FlowStep.callTrigger, FlowStep.callAddLeads, FlowStep.callTrigger]))
    ∧ (∀ e, first = Except.error e → e.status ≠ some 404 →
        triggerFollowupFlow first enroll retry
          = (Except.error e, [FlowStep.callTrigger])) := by
  refine ⟨?_, ?_, ?_⟩
  · cases first with
    | ok d =>
        constructor
        · show List.count FlowStep.callAddLeads [FlowStep.callTrigger] ≤ 1
          decide
        · show List.count FlowStep.callTrigger [FlowStep.callTrigger] ≤ 2
          decide
    | error e =>
        simp only [triggerFollowupFlow]
        by_cases h404 : e.status = some 404
        · rw [if_pos h404]
          cases enroll with
          | ok u =>
              constructor
              · show List.count FlowStep.callAddLeads
                  [FlowStep.callTrigger, FlowStep.callAddLeads,
                    FlowStep.callTrigger] ≤ 1
                decide
              · show List.count FlowStep.callTrigger
                  [FlowStep.callTrigger, FlowStep.callAddLeads,
                    FlowStep.callTrigger] ≤ 2
                decide
          | error e2 =>
              constructor
              · show List.count FlowStep.callAddLeads
                  [FlowStep.callTrigger, FlowStep.callAddLeads] ≤ 1
                decide
              · show List.count FlowStep.callTrigger
                  [FlowStep.callTrigger, FlowStep.callAddLeads] ≤ 2
                decide
        · rw [if_neg h404]
          constructor
          · show List.count FlowStep.callAddLeads [FlowStep.callTrigger] ≤ 1
            decide
          · show List.count FlowStep.callTrigger [FlowStep.callTrigger] ≤ 2
            decide
  · intro e hfirst h404 henroll
    subst hfirst; subst henroll
    simp [triggerFollowupFlow, h404]
  · intro e hfirst h404
    subst hfirst
    simp [triggerFollowupFlow, h404]

/-- C5 witness: a 404 first failure followed by a successful enroll and
retry performs trigger, addLeads, trigger and returns the retried
draft. -/
theorem auto_enroll_retry_witness :
    triggerFollowupFlow
        (Except.error ⟨some 404, "Campaign or lead not found"⟩)
        (Except.ok ())
        (Except.ok ⟨"d1", "l1", 1, ["s1"], none, "body", "pending"⟩)
      = (Except.ok ⟨"d1", "l1", 1, ["s1"], none, "body", "pending"⟩,
         [FlowStep.callTrigger, FlowStep.callAddLeads, FlowStep.callTrigger]) :=
  (auto_enroll_retry_at_most_once
      (Except.error ⟨some 404, "Campaign or lead not found"⟩)
      (Except.ok ())
      (Except.ok ⟨"d1", "l1", 1, ["s1"], none, "body", "pending"⟩)).2.1
    ⟨some 404, "Campaign or lead not found"⟩ rfl rfl rfl

/-- C7: no InSequence interaction auto-approves or auto-sends: a row click
issues no `approveFollowup` call, `handleConfirmSend` is a no-op unless a
campaign, a selected lead and a produced draft are all present, and any
`approveFollowup` call issued by any interaction comes from the modal
confirmation with all three present. -/
theorem no_auto_approve_or_send :
    (∀ (defaultCampaign : Option Campaign) (lead : Lead) (c : SeqCall),
        c ∈ handleRowClick defaultCampaign lead → isApprove c = false)
    ∧ (∀ s : SeqUIState,
        s.defaultCampaign = none ∨ s.selectedSequenceLead = none
            ∨ s.triggerDraft = none →
          handleConfirmSend s = [])
    ∧ (∀ (s : SeqUIState) (a : SeqAction) (c : SeqCall),
        c ∈ actionCalls s a → isApprove c = true →
          a = SeqAction.modalConfirm ∧ s.defaultCampaign ≠ none
            ∧ s.selectedSequenceLead ≠ none ∧ s.triggerDraft ≠ none) := by
  have hconfirm : ∀ s : SeqUIState,
      s.defaultCampaign = none ∨ s.selectedSequenceLead = none
          ∨ s.triggerDraft = none →
        handleConfirmSend s = [] := by
    intro s hs
    unfold handleConfirmSend
    rcases hcamp : s.defaultCampaign with _ | camp <;>
      rcases hlead : s.selectedSequenceLead with _ | lead <;>
        rcases hdraft : s.triggerDraft with _ | draft <;> simp
    rcases hs with h | h | h
    · rw [hcamp] at h; exact absurd h (by simp)
    · rw [hlead] at h; exact absurd h (by simp)
    · rw [hdraft] at h; exact absurd h (by simp)
  have hrow : ∀ (defaultCampaign : Option Campaign) (lead : Lead) (c : SeqCall),
      c ∈ handleRowClick defaultCampaign lead → isApprove c = false := by
    intro dc lead c hc
    cases dc with
    | none => simp [handleRowClick] at hc
    | some camp =>
        simp [handleRowClick] at hc
        subst hc
        rfl
  refine ⟨hrow, hconfirm, ?_⟩
  intro s a c hc happrove
  cases a with
  | rowClick lead =>
      exact absurd (hrow s.defaultCampaign lead c hc) (by simp [happrove])
  | approveClick => simp [actionCalls] at hc
  | modalCancel => simp [actionCalls] at hc
  | modalConfirm =>
      refine ⟨rfl, ?_, ?_, ?_⟩ <;>
      · intro hnone
        have hempty : handleConfirmSend s = [] := hconfirm s (by tauto)
        unfold actionCalls at hc
        rcases hcamp : s.defaultCampaign with _ | camp
        · rw [hcamp] at hc; simp at hc
        · rw [hcamp] at hc
          rw [hempty] at hc
          simp at hc
          subst hc
          exact absurd happrove (by simp [isApprove])

/-- C7 witness: with no campaign, no selected lead and no draft, the
confirmation path issues nothing. -/
theorem no_auto_approve_or_send_witness :
    handleConfirmSend ⟨none, none, none, "", ""⟩ = [] :=
  no_auto_approve_or_send.2.1 ⟨none, none, none, "", ""⟩ (Or.inl rfl)

/-- C8: the backend `approve` turns a pending draft into an approved one
and fails with `InvalidStateError` on any other status; the draft editor
footer offers the Approve and Reject actions exactly for pending drafts;
and a reject is only ever issued with a reason that is non-empty after
trimming. -/
theorem approve_requires_pending_status :
    (∀ d : Backend.Draft, d.status = Backend.DraftStatus.pending →
        Backend.approveDraft d
          = Except.ok { d with status := Backend.DraftStatus.approved })
    ∧ (∀ d : Backend.Draft, d.status ≠ Backend.DraftStatus.pending →
        Backend.approveDraft d = Except.error Backend.DraftErr.invalidState)
    ∧ (∀ d : Draft, previewFooterVisible d = true ↔ d.status = "pending")
    ∧ (∀ (sel : Option Draft) (reason : String) (call : RejectCall),
        handleReject sel reason = some call → reason.trim ≠ "") := by
  refine ⟨?_, ?_, ?_, ?_⟩
  · intro d hd
    simp [Backend.approveDraft, hd]
  · intro d hd
    simp [Backend.approveDraft, hd]
  · intro d
    simp [previewFooterVisible]
  · intro sel reason call hcall
    cases sel with
    | none => simp [handleReject] at hcall
    | some d =>
        by_cases htrim : reason.trim = ""
        · simp [handleReject, htrim] at hcall
        · exact htrim

/-- C8 witness: approving an already sent draft fails with the invalid
state error. -/
theorem approve_requires_pending_status_witness :
    Backend.approveDraft ⟨7, 1, 2, Backend.DraftStatus.sent⟩
      = Except.error Backend.DraftErr.invalidState :=
  approve_requires_pending_status.2.1 ⟨7, 1, 2, Backend.DraftStatus.sent⟩
    (by decide)

/-- bulkApprove always reports exactly one outcome per requested id. -/
lemma bulkApprove_reports_every_id (store : List Backend.Draft)
    (ids : List Nat) :
    (Backend.bulkApprove store ids).2.length = ids.length := by
  induction ids generalizing store with
  | nil => rfl
  | cons i rest ih =>
      simp only [Backend.bulkApprove, List.length_cons]
      rw [ih]

/-- C9: `bulkApprove` applies `approve` per draft with per-id partial
success: in a batch of a pending draft and an already sent draft, the
pending one is approved in the store, the sent one is reported as a
per-item `InvalidStateError` failure without blocking the other, and the
call as a whole returns one outcome per id rather than raising. -/
theorem bulk_approve_partial_success (d1 d2 : Backend.Draft)
    (h1 : d1.status = Backend.DraftStatus.pending)
    (h2 : d2.status = Backend.DraftStatus.sent)
    (hid : d1.id ≠ d2.id) :
    Backend.bulkApprove [d1, d2] [d1.id, d2.id]
      = ([{ d1 with status := Backend.DraftStatus.approved }, d2],
         [(d1.id, Except.ok { d1 with status := Backend.DraftStatus.approved }),
          (d2.id, Except.error Backend.DraftErr.invalidState)])
    ∧ (∀ (store : List Backend.Draft) (ids : List Nat),
        (Backend.bulkApprove store ids).2.length = ids.length) := by
  refine ⟨?_, bulkApprove_reports_every_id⟩
  have hfind1 : List.find? (fun d => decide (d.id = d1.id)) [d1, d2]
      = some d1 := by
    apply List.find?_cons_of_pos
    simp
  have happrove1 : Backend.approveDraft d1
      = Except.ok { d1 with status := Backend.DraftStatus.approved } := by
    simp [Backend.approveDraft, h1]
  have happrove2 : Backend.approveDraft d2
      = Except.error Backend.DraftErr.invalidState := by
    simp [Backend.approveDraft, h2]
  have hstep1 : Backend.bulkApproveStep [d1, d2] d1.id
      = ([{ d1 with status := Backend.DraftStatus.approved }, d2],
         Except.ok { d1 with status := Backend.DraftStatus.approved }) := by
    simp only [Backend.bulkApproveStep, hfind1, happrove1]
    congr 1
    simp [List.map_cons, hid, Ne.symm hid]
  have hfind2 : List.find? (fun d => decide (d.id = d2.id))
      [{ d1 with status := Backend.DraftStatus.approved }, d2] = some d2 := by
    rw [List.find?_cons_of_neg, List.find?_cons_of_pos]
    · simp
    · simp [hid]
  have hstep2 : Backend.bulkApproveStep
      [{ d1 with status := Backend.DraftStatus.approved }, d2] d2.id
      = ([{ d1 with status := Backend.DraftStatus.approved }, d2],
         Except.error Backend.DraftErr.invalidState) := by
    simp only [Backend.bulkApproveStep, hfind2, happrove2]
  simp only [Backend.bulkApprove, hstep1, hstep2]

/-- C9 witness: the concrete batch of a pending draft 1 and a sent draft 2
approves draft 1 and reports draft 2 as a per-item failure. -/
theorem bulk_approve_partial_success_witness :
    Backend.bulkApprove
        [⟨1, 10, 1, Backend.DraftStatus.pending⟩,
         ⟨2, 10, 2, Backend.DraftStatus.sent⟩] [1, 2]
      = ([⟨1, 10, 1, Backend.DraftStatus.approved⟩,
          ⟨2, 10, 2, Backend.DraftStatus.sent⟩],
         [(1, Except.ok ⟨1, 10, 1, Backend.DraftStatus.approved⟩),
          (2, Except.error Backend.DraftErr.invalidState)])
      ∧ (∀ (store : List Backend.Draft) (ids : List Nat),
          (Backend.bulkApprove store ids).2.length = ids.length) :=
  bulk_approve_partial_success
    ⟨1, 10, 1, Backend.DraftStatus.pending⟩
    ⟨2, 10, 2, Backend.DraftStatus.sent⟩ rfl rfl (by decide)

/-- C1: starting from a store with no pending draft for a (lead, touch)
slot, two triggers for that slot in rapid succession (serialized, per the
concurrency model) leave exactly one pending draft for the slot: the
second trigger reuses the pending draft the first one produced. -/
theorem trigger_twice_one_pending_draft (st : Backend.TriggerState)
    (leadId touch : Nat)
    (h : Backend.pendingFor st leadId touch = []) :
    (Backend.pendingFor (Backend.triggerTwice st leadId touch)
        leadId touch).length = 1 := by
  have hall : ∀ d ∈ st.drafts, ¬ Backend.isPendingSlot leadId touch d = true :=
    List.filter_eq_nil_iff.mp h
  have hfind : st.drafts.find? (Backend.isPendingSlot leadId touch) = none :=
    List.find?_eq_none.mpr hall
  have hnew : Backend.isPendingSlot leadId touch
      ⟨st.nextId, leadId, touch, Backend.DraftStatus.pending⟩ = true := by
    simp [Backend.isPendingSlot]
  have hfirst : Backend.trigger st leadId touch
      = (⟨⟨st.nextId, leadId, touch, Backend.DraftStatus.pending⟩ :: st.drafts,
          st.nextId + 1⟩,
         ⟨st.nextId, leadId, touch, Backend.DraftStatus.pending⟩) := by
    simp only [Backend.trigger, hfind]
  have hfind2 : List.find? (Backend.isPendingSlot leadId touch)
      (⟨st.nextId, leadId, touch, Backend.DraftStatus.pending⟩ :: st.drafts)
      = some ⟨st.nextId, leadId, touch, Backend.DraftStatus.pending⟩ :=
    List.find?_cons_of_pos _ hnew
  have hsecond : Backend.trigger
      (⟨⟨st.nextId, leadId, touch, Backend.DraftStatus.pending⟩ :: st.drafts,
        st.nextId + 1⟩ : Backend.TriggerState) leadId touch
      = (⟨⟨st.nextId, leadId, touch, Backend.DraftStatus.pending⟩ :: st.drafts,
          st.nextId + 1⟩,
         ⟨st.nextId, leadId, touch, Backend.DraftStatus.pending⟩) := by
    simp only [Backend.trigger, hfind2]
  unfold Backend.triggerTwice
  rw [hfirst, hsecond]
  show (Backend.pendingFor
      ⟨⟨st.nextId, leadId, touch, Backend.DraftStatus.pending⟩ :: st.drafts,
        st.nextId + 1⟩ leadId touch).length = 1
  unfold Backend.pendingFor at h ⊢
  rw [List.filter_cons_of_pos hnew, h]
  rfl

/-- C1 witness: from the empty store, two triggers for lead 1, touch 1
leave exactly one pending draft for that slot. -/
theorem trigger_twice_one_pending_draft_witness :
    (Backend.pendingFor (Backend.triggerTwice ⟨[], 0⟩ 1 1) 1 1).length = 1 :=
  trigger_twice_one_pending_draft ⟨[], 0⟩ 1 1 rfl

/-- A lead that has replied but whose status is still `sequencing`. -/
def repliedSequencingLead : Lead :=
  ⟨"L1", "Acme", "ann@acme.test", "sequencing", some 1, some true⟩

/-- The default follow-up campaign of the InSequence page. -/
def defaultFollowupCampaign : Campaign :=
  ⟨"C1", some "DEFAULT-FOLLOWUP", "Default Followup", "active", 3, some [3]⟩

/-- C4 counterexample: the active-queue filter and the row action never
consult `has_replied`: a lead with `has_replied = true` whose status field
is still `sequencing` appears in the active queue, and clicking its row
issues a trigger for it. -/
theorem replied_lead_still_in_queue_and_triggerable :
    repliedSequencingLead.has_replied = some true
      ∧ repliedSequencingLead ∈ activeLeads [repliedSequencingLead]
      ∧ handleRowClick (some defaultFollowupCampaign) repliedSequencingLead
          = [SeqCall.triggerFollowup "C1" "L1"] := by
  refine ⟨rfl, ?_, rfl⟩
  simp [activeLeads, repliedSequencingLead]

/-- C4 (amended): the sequence view excludes leads from the active queue
by the status field alone: a lead with status `replied` is never in the
active queue, but `handleRowClick` does not consult `has_replied` and
issues a trigger for whatever row is clicked whenever a default campaign
exists, so a lead with `has_replied = true` whose status is not yet
`replied` can still receive a trigger. -/
theorem active_queue_excludes_replied_status :
    (∀ (ls : List Lead) (l : Lead), l.status = "replied" →
        l ∉ activeLeads ls)
    ∧ (∀ (c : Campaign) (l : Lead),
        handleRowClick (some c) l = [SeqCall.triggerFollowup c.id l.id]) := by
  constructor
  · intro ls l hstatus hmem
    have hp := (List.mem_filter.mp hmem).2
    rw [hstatus] at hp
    exact absurd (of_decide_eq_true hp) (by decide)
  · intro c l
    rfl

/-- C4 amended witness: a lead with status `replied` is not in the active
queue built from the singleton list holding it. -/
theorem active_queue_excludes_replied_status_witness :
    (⟨"L2", "Beta", "bo@beta.test", "replied", some 2, some true⟩ : Lead)
      ∉ activeLeads
          [⟨"L2", "Beta", "bo@beta.test", "replied", some 2, some true⟩] :=
  active_queue_excludes_replied_status.1 _ _ rfl
